import Mathlib

/-!
Verification development for the opendatacube importer's metadata-derivation
and product/dataset reconciliation logic (`src/odc_importer`).

The Python code manipulates string-keyed dictionaries (YAML documents) and a
filesystem/index environment.  We embed the documents as insertion-ordered
association structures (`Doc`), Python exceptions as an explicit error type
(`PyErr`) carried by `Except`, and the filesystem / ODC index as explicit
state (`OdcState`).  External collaborators (HTTP transfer, archive
extraction, rasterio/xarray geospatial readers, the index backend) are
environment parameters, following the source's own boundaries.
-/

/-- Python values as they appear in YAML-bound dictionaries: strings, ints,
`None`, lists and (insertion-ordered) dicts.  Mirrors what the loaders in
`src/odc_importer` actually store. -/
inductive Doc where
  | str : String → Doc
  | int : Int → Doc
  | pynone : Doc
  | arr : List Doc → Doc
  | obj : List (String × Doc) → Doc

/-- Python exceptions that the embedded code can raise. -/
inductive PyErr where
  | keyError : String → PyErr
  | assertError : PyErr
  | nameError : String → PyErr
  | indexError : PyErr
  | typeError : PyErr
  | other : String → PyErr
deriving DecidableEq

mutual

/-- Structural equality test on documents, mirroring Python `==` on the
value kinds that occur here (values of different kinds compare unequal). -/
def Doc.beq : Doc → Doc → Bool
  | Doc.str a, Doc.str b => a == b
  | Doc.int a, Doc.int b => a == b
  | Doc.pynone, Doc.pynone => true
  | Doc.arr a, Doc.arr b => Doc.beqArr a b
  | Doc.obj a, Doc.obj b => Doc.beqObj a b
  | _, _ => false

/-- Elementwise `Doc.beq` on lists. -/
def Doc.beqArr : List Doc → List Doc → Bool
  | [], [] => true
  | x :: xs, y :: ys => Doc.beq x y && Doc.beqArr xs ys
  | _, _ => false

/-- Pairwise `Doc.beq` on ordered key/value lists. -/
def Doc.beqObj : List (String × Doc) → List (String × Doc) → Bool
  | [], [] => true
  | (k1, v1) :: xs, (k2, v2) :: ys => k1 == k2 && Doc.beq v1 v2 && Doc.beqObj xs ys
  | _, _ => false

end

/-- First value bound to a key in an ordered association list. -/
def alistGet? {α : Type} : List (String × α) → String → Option α
  | [], _ => Option.none
  | p :: rest, k => if p.1 = k then Option.some p.2 else alistGet? rest k

/-- Python dict assignment `d[k] = v`: replace in place if the key exists
(preserving its position), else append. -/
def alistSet {α : Type} : List (String × α) → String → α → List (String × α)
  | [], k, v => [(k, v)]
  | p :: rest, k, v => if p.1 = k then (k, v) :: rest else p :: alistSet rest k v

/-- Python `d.get(k)` on a document (None-free variant: `Option`). -/
def Doc.get? : Doc → String → Option Doc
  | Doc.obj ps, k => alistGet? ps k
  | _, _ => Option.none

/-- Python subscript `d[k]`: raises `KeyError` when the key is absent. -/
def Doc.item : Doc → String → Except PyErr Doc
  | d, k =>
    match d.get? k with
    | Option.some v => Except.ok v
    | Option.none => Except.error (PyErr.keyError k)

/-- Python `d.update(other)` for dicts: existing keys keep their position and
get the new value, new keys are appended in `other`'s order. -/
def alistUpdate (base other : List (String × Doc)) : List (String × Doc) :=
  other.foldl (fun acc p => alistSet acc p.1 p.2) base

/-- `os.path.join` for two components (the only form the importer uses):
an absolute second component discards the first; otherwise a single slash
separates them unless the first already ends in one. -/
def pyJoin (a b : String) : String :=
  if b.data.head? = Option.some '/' then b
  else if a.data = [] then b
  else if a.data.getLast? = Option.some '/' then a ++ b
  else a ++ "/" ++ b

/-- `os.path.basename`: the longest suffix containing no slash. -/
def pyBasename (p : String) : String :=
  String.mk ((p.data.reverse.takeWhile (fun c => c != '/')).reverse)

/-- Python `str.endswith`. -/
def pyEndsWith (s suf : String) : Bool :=
  suf.data.isSuffixOf s.data

/-- Python `str.startswith`. -/
def pyStartsWith (s pre : String) : Bool :=
  pre.data.isPrefixOf s.data

/-- One step of `os.path.normpath`'s component scan (components kept in
reverse order): drop empty and `.` components, resolve `..` against the
accumulated path. -/
def npStep (isAbs : Bool) (acc : List String) (comp : String) : List String :=
  if comp = "" ∨ comp = "." then acc
  else if comp = ".." then
    match acc with
    | [] => if isAbs then [] else [".."]
    | a :: rest => if a = ".." then comp :: acc else rest
  else comp :: acc

/-- Python `str.split(sep)` for a single separator character, keeping empty
pieces (char-level, kernel-computable). -/
def splitOnChar (sep : Char) : List Char → List (List Char)
  | [] => [[]]
  | x :: xs =>
    match splitOnChar sep xs with
    | [] => [[]]
    | g :: gs => if x = sep then [] :: g :: gs else (x :: g) :: gs

/-- Join path components with single slashes (`'/'.join`). -/
def joinSlash : List String → String
  | [] => ""
  | [x] => x
  | x :: xs => x ++ "/" ++ joinSlash xs

/-- `os.path.normpath` (POSIX flavour, as `os.path.split`'s caller uses it):
collapse duplicate separators and `.`/`..` components, preserving the
special two-leading-slash form. -/
def pyNormpath (p : String) : String :=
  if p = "" then "." else
  let isAbs := p.data.head? == Option.some '/'
  let twoSlash := pyStartsWith p "//" && !(pyStartsWith p "///")
  let comps := (((splitOnChar '/' p.data).map String.mk).foldl (npStep isAbs) []).reverse
  let body := joinSlash comps
  let lead := if isAbs then (if twoSlash then "//" else "/") else ""
  if lead = "" ∧ body = "" then "." else lead ++ body

/-- `os.path.split`: `(head, tail)` where `tail` is everything after the last
slash and `head` has its trailing slashes stripped unless it is all slashes. -/
def pySplit (p : String) : String × String :=
  let tailChars := (p.data.reverse.takeWhile (fun c => c != '/')).reverse
  let headAll := p.data.take (p.data.length - tailChars.length)
  let headStripped := (headAll.reverse.dropWhile (fun c => c = '/')).reverse
  let headChars := if headStripped = [] then headAll else headStripped
  (String.mk headChars, String.mk tailChars)

/-! ## Dataset identity: `uuid.uuid5(uuid.NAMESPACE_URL, path)`

`uuid5` is the SHA-1 of the namespace bytes concatenated with the UTF-8
encoding of the name, truncated to 16 bytes with version/variant bits set,
rendered as lowercase hyphenated hex.  Bytes are `Nat`s below 256, 32-bit
words are `Nat`s reduced modulo `2 ^ 32`. -/

/-- Truncate to a 32-bit word. -/
def w32 (n : Nat) : Nat := n % 4294967296

/-- Rotate a 32-bit word left by `k` bits. -/
def rotl (k n : Nat) : Nat := w32 (n * 2 ^ k) + n / 2 ^ (32 - k)

/-- SHA-1 round function, by round index. -/
def shaF (i b c d : Nat) : Nat :=
  if i < 20 then (b &&& c) ||| ((b ^^^ 4294967295) &&& d)
  else if i < 40 then b ^^^ c ^^^ d
  else if i < 60 then (b &&& c) ||| (b &&& d) ||| (c &&& d)
  else b ^^^ c ^^^ d

/-- SHA-1 round constant, by round index. -/
def shaK (i : Nat) : Nat :=
  if i < 20 then 1518500249
  else if i < 40 then 1859775393
  else if i < 60 then 2400959708
  else 3395469782

/-- The five-word SHA-1 chaining state. -/
structure Sha1State where
  a : Nat
  b : Nat
  c : Nat
  d : Nat
  e : Nat

/-- 64-bit big-endian byte encoding (for the length trailer). -/
def be64 (n : Nat) : List Nat :=
  [n / 2 ^ 56 % 256, n / 2 ^ 48 % 256, n / 2 ^ 40 % 256, n / 2 ^ 32 % 256,
   n / 2 ^ 24 % 256, n / 2 ^ 16 % 256, n / 2 ^ 8 % 256, n % 256]

/-- SHA-1 message padding: `0x80`, zeros to 56 mod 64, then the bit length. -/
def shaPad (msg : List Nat) : List Nat :=
  let l := msg.length
  let z := (56 + 64 - (l + 1) % 64) % 64
  msg ++ [128] ++ List.replicate z 0 ++ be64 (8 * l)

/-- Split a byte list into 64-byte chunks (structural recursion on a fuel
bound; each step consumes 64 > 0 bytes, so `l.length` steps always
suffice and the `0` arm is never reached on the intended calls). -/
def toChunksF : Nat → List Nat → List (List Nat)
  | _, [] => []
  | 0, l => [l]
  | fuel + 1, l => l.take 64 :: toChunksF fuel (l.drop 64)

/-- Split a byte list into 64-byte chunks. -/
def toChunks (l : List Nat) : List (List Nat) := toChunksF l.length l

/-- Big-endian 32-bit words of a chunk. -/
def chunkWords : List Nat → List Nat
  | b0 :: b1 :: b2 :: b3 :: rest =>
      (((b0 * 256 + b1) * 256 + b2) * 256 + b3) :: chunkWords rest
  | _ => []

/-- Extend the 16 message words to 80 schedule words (`n` words still to
append). -/
def extendW : Nat → List Nat → List Nat
  | 0, ws => ws
  | n + 1, ws =>
    let k := ws.length
    let g := fun (j : Nat) => (ws.get? (k - j)).getD 0
    extendW n (ws ++ [rotl 1 (((g 3 ^^^ g 8) ^^^ g 14) ^^^ g 16)])

/-- One SHA-1 round: state update for schedule word `w` at round `i`. -/
def shaRound (st : Sha1State) (iw : Nat × Nat) : Sha1State :=
  let t := w32 (rotl 5 st.a + shaF iw.1 st.b st.c st.d + st.e + shaK iw.1 + iw.2)
  { a := t, b := st.a, c := rotl 30 st.b, d := st.c, e := st.d }

/-- Process one 64-byte chunk into the chaining state. -/
def shaChunk (h : Sha1State) (chunk : List Nat) : Sha1State :=
  let ws := extendW 64 (chunkWords chunk)
  let f := ws.enum.foldl shaRound h
  { a := w32 (h.a + f.a), b := w32 (h.b + f.b), c := w32 (h.c + f.c),
    d := w32 (h.d + f.d), e := w32 (h.e + f.e) }

/-- Big-endian bytes of a 32-bit word. -/
def wordBytes (n : Nat) : List Nat :=
  [n / 2 ^ 24 % 256, n / 2 ^ 16 % 256, n / 2 ^ 8 % 256, n % 256]

/-- SHA-1 digest (20 bytes) of a byte string. -/
def sha1 (msg : List Nat) : List Nat :=
  let h0 : Sha1State :=
    { a := 1732584193, b := 4023233417, c := 2562383102, d := 271733878, e := 3285377520 }
  let hf := (toChunks (shaPad msg)).foldl shaChunk h0
  wordBytes hf.a ++ wordBytes hf.b ++ wordBytes hf.c ++ wordBytes hf.d ++ wordBytes hf.e

/-- UTF-8 bytes of one character. -/
def utf8Bytes (c : Char) : List Nat :=
  let n := c.toNat
  if n < 128 then [n]
  else if n < 2048 then [192 + n / 64, 128 + n % 64]
  else if n < 65536 then [224 + n / 4096, 128 + n / 64 % 64, 128 + n % 64]
  else [240 + n / 262144, 128 + n / 4096 % 64, 128 + n / 64 % 64, 128 + n % 64]

/-- UTF-8 encoding of a string (`str.encode('utf-8')`). -/
def strBytes (s : String) : List Nat :=
  s.data.foldr (fun c acc => utf8Bytes c ++ acc) []

/-- Lowercase hex digit. -/
def hexDigit (n : Nat) : Char :=
  if n < 10 then Char.ofNat (48 + n) else Char.ofNat (87 + n)

/-- Two lowercase hex digits of a byte. -/
def byteHex (b : Nat) : List Char := [hexDigit (b / 16), hexDigit (b % 16)]

/-- Hex rendering of a byte list. -/
def bytesHex (bs : List Nat) : String :=
  String.mk (bs.foldr (fun b acc => byteHex b ++ acc) [])

/-- `uuid.NAMESPACE_URL` bytes (6ba7b811-9dad-11d1-80b4-00c04fd430c8). -/
def namespaceUrlBytes : List Nat :=
  [107, 167, 184, 17, 157, 173, 17, 209, 128, 180, 0, 192, 79, 212, 48, 200]

/-- `str(uuid.uuid5(ns, name))`: SHA-1 of namespace bytes plus UTF-8 name,
first 16 bytes, version nibble forced to 5 and variant bits to 10,
hyphenated lowercase hex. -/
def uuid5 (ns : List Nat) (name : String) : String :=
  let d0 := (sha1 (ns ++ strBytes name)).take 16
  let d1 := d0.set 6 (80 + (d0.get? 6).getD 0 % 16)
  let d := d1.set 8 (128 + (d1.get? 8).getD 0 % 64)
  bytesHex (d.take 4) ++ "-" ++ bytesHex ((d.drop 4).take 2) ++ "-" ++
    bytesHex ((d.drop 6).take 2) ++ "-" ++ bytesHex ((d.drop 8).take 2) ++ "-" ++
    bytesHex (d.drop 10)

/-- The dataset identity used at `odc.py:160` and by the loaders:
`str(uuid.uuid5(uuid.NAMESPACE_URL, dataset_path))`. -/
def datasetId (path : String) : String := uuid5 namespaceUrlBytes path

/-! ## Metadata Builder: `odc.create_dataset_yaml_eo3` / `odc.create_product_yaml_eo3` -/

/-- The per-band loop of `create_dataset_yaml_eo3` (odc.py:245-255): each
band entry gets its `path`, then `band` if present, then `layer` if
present.  A band entry without `path` raises `KeyError`. -/
def buildMeasurements : List (String × Doc) → Except PyErr (List (String × Doc))
  | [] => Except.ok []
  | (band, info) :: rest => do
    let pathV ← info.item "path"
    let d1 := [("path", pathV)]
    let d2 := match info.get? "band" with
      | Option.some bv => alistSet d1 "band" bv
      | Option.none => d1
    let d3 := match info.get? "layer" with
      | Option.some lv => alistSet d2 "layer" lv
      | Option.none => d2
    let restM ← buildMeasurements rest
    Except.ok ((band, Doc.obj d3) :: restM)

/-- `odc.create_dataset_yaml_eo3` (odc.py:233-285).  Asserts the product
name against `metadata_dict['metadata']['product']['name']` (a missing
`'metadata'` key is a `KeyError`, as in Python), builds the measurement
entries, assembles the eo3 dataset document, and finally merges
`metadata_dict['metadata']` into its top level via `dict.update`. -/
def create_dataset_yaml_eo3 (odc_product_name : String) (metadata_dict : Doc) :
    Except PyErr Doc := do
  let mdMeta ← metadata_dict.item "metadata"
  let prodDoc ← mdMeta.item "product"
  let nameV ← prodDoc.item "name"
  if (Doc.str odc_product_name).beq nameV then Except.ok () else Except.error PyErr.assertError
  let bandsDoc ← metadata_dict.item "bands"
  let bandPairs ← match bandsDoc with
    | Doc.obj ps => Except.ok ps
    | _ => Except.error PyErr.typeError
  let measurements ← buildMeasurements bandPairs
  let schemaV := (metadata_dict.get? "schema").getD
    (Doc.str "https://schemas.opendatacube.org/dataset")
  let idV ← metadata_dict.item "id"
  let crsV ← metadata_dict.item "crs"
  let polyV ← metadata_dict.item "polygon"
  let shapeV ← metadata_dict.item "shape"
  let transformV ← metadata_dict.item "transform"
  let platformV ← metadata_dict.item "platform"
  let instrumentV ← metadata_dict.item "instrument"
  let datetimeV ← metadata_dict.item "datetime"
  let procV ← metadata_dict.item "processing_datetime"
  let ffV ← metadata_dict.item "file_format"
  let lineageV := (metadata_dict.get? "lineage").getD Doc.pynone
  let base : List (String × Doc) :=
    [("$schema", schemaV),
     ("id", idV),
     ("crs", crsV),
     ("geometry", Doc.obj [("type", Doc.str "Polygon"), ("coordinates", polyV)]),
     ("grids", Doc.obj [("default", Doc.obj [("shape", shapeV), ("transform", transformV)])]),
     ("measurements", Doc.obj measurements),
     ("properties", Doc.obj
       [("eo:platform", platformV),
        ("eo:instrument", instrumentV),
        ("datetime", datetimeV),
        ("odc:processing_datetime", procV),
        ("odc:file_format", ffV)]),
     ("lineage", lineageV)]
  let metaPairs ← match mdMeta with
    | Doc.obj ps => Except.ok ps
    | _ => Except.error PyErr.typeError
  Except.ok (Doc.obj (alistUpdate base metaPairs))

/-- The per-measurement loop of `create_product_yaml_eo3` (odc.py:299-309). -/
def buildProductMeasurements : List (String × Doc) → Except PyErr (List Doc)
  | [] => Except.ok []
  | (name, info) :: rest => do
    let dtypeV ← info.item "dtype"
    let unitsV ← info.item "units"
    let nodataV ← info.item "nodata"
    let aliasesV ← info.item "aliases"
    let restM ← buildProductMeasurements rest
    Except.ok (Doc.obj
      [("name", Doc.str name), ("dtype", dtypeV), ("units", unitsV),
       ("nodata", nodataV), ("aliases", aliasesV)] :: restM)

/-- `odc.create_product_yaml_eo3` (odc.py:288-318).  The chained assertion
`name == md['name'] == md['metadata']['product']['name']` short-circuits:
the embedded-name lookup only happens when the first comparison holds. -/
def create_product_yaml_eo3 (odc_product_name : String) (metadata_dict : Doc) :
    Except PyErr Doc := do
  let nameV ← metadata_dict.item "name"
  if (Doc.str odc_product_name).beq nameV then
    let mdMeta ← metadata_dict.item "metadata"
    let prodDoc ← mdMeta.item "product"
    let pnameV ← prodDoc.item "name"
    if nameV.beq pnameV then Except.ok () else Except.error PyErr.assertError
  else Except.error PyErr.assertError
  let measDoc ← metadata_dict.item "measurements"
  let measPairs ← match measDoc with
    | Doc.obj ps => Except.ok ps
    | _ => Except.error PyErr.typeError
  let measurements ← buildProductMeasurements measPairs
  let nameV2 ← metadata_dict.item "name"
  let descV ← metadata_dict.item "description"
  let mdMeta2 ← metadata_dict.item "metadata"
  Except.ok (Doc.obj
    [("metadata_type", Doc.str "eo3"),
     ("name", nameV2),
     ("description", descV),
     ("metadata", mdMeta2),
     ("measurements", Doc.arr measurements)])

/-! ## Grid (NetCDF) adapter: `loaders/netcdf.py` -/

/-- Geospatial facts read from an open NetCDF file by xarray/rioxarray
(external collaborators): coordinate arrays, CRS, rio transform and shape,
first time value.  `NetCDFLoader.create_dataset_metadata_eo3` consumes only
these observations of the file's content. -/
structure NcEnv where
  latitudes : List Int
  longitudes : List Int
  crs : String
  transform : List Int
  shapeRows : Int
  shapeCols : Int
  time0 : String

/-- `NetCDFLoader._create_metadata_document` (netcdf.py:156-161). -/
def netcdf_metadata_document (odc_product_name : String) : Doc :=
  Doc.obj [("product", Doc.obj [("name", Doc.str odc_product_name)])]

/-- A closed `[[x, y], ...]` ring as built by the loaders. -/
def ringDoc (pts : List (Int × Int)) : Doc :=
  Doc.arr [Doc.arr (pts.map (fun p => Doc.arr [Doc.int p.1, Doc.int p.2]))]

/-- `NetCDFLoader.create_dataset_metadata_eo3` (netcdf.py:91-151),
parameterised by the subclass's `measurement_dict` keys and the file
observations.  Note the source computes `self._create_metadata_document`
and discards it, hardcodes `product_name: 'waves'`, and emits no
`'metadata'` key. -/
def netcdf_create_dataset_metadata_eo3 (measurementKeys : List String) (env : NcEnv)
    (odc_product_name dataset : String) : Doc :=
  let _metadata := netcdf_metadata_document odc_product_name
  let minLat := (env.latitudes.foldr min 0)
  let maxLat := (env.latitudes.foldr max 0)
  let minLon := (env.longitudes.foldr min 0)
  let maxLon := (env.longitudes.foldr max 0)
  let polygon := ringDoc
    [(minLat, minLon), (minLat, maxLon), (maxLat, maxLon), (maxLat, minLon), (minLat, minLon)]
  let measurements := measurementKeys.map
    (fun v => (v, Doc.obj [("path", Doc.str dataset), ("layer", Doc.str v)]))
  Doc.obj
    [("id", Doc.str (datasetId dataset)),
     ("schema", Doc.str "https://schemas.opendatacube.org/dataset"),
     ("product_name", Doc.str "waves"),
     ("crs", Doc.str env.crs),
     ("polygon", polygon),
     ("shape", Doc.arr [Doc.int env.shapeCols, Doc.int env.shapeRows]),
     ("transform", Doc.arr (env.transform.map Doc.int)),
     ("bands", Doc.obj measurements),
     ("platform", Doc.str "na"),
     ("instrument", Doc.str "na"),
     ("datetime", Doc.str env.time0),
     ("processing_datetime", Doc.str env.time0),
     ("file_format", Doc.str "NETCDF"),
     ("lineage", Doc.obj [])]

/-- `waves_measurements` keys (loaders/cmems.py). -/
def wavesMeasurementKeys : List String := ["VHM0", "VTPK", "VMDR"]

/-- `currents_measurements` keys (loaders/cmems.py). -/
def currentsMeasurementKeys : List String := ["utotal", "vtotal"]

/-! ## Tiled-raster adapter: `anthroprotect.py` (AnthroprotectLoader) -/

/-- `S2_BANDS` keys (anthroprotect.py:46-107), in declaration order. -/
def s2BandKeys : List String :=
  ["blue", "green", "red", "vegetation_red_edge1", "vegetation_red_edge2",
   "vegetation_red_edge3", "nir", "narrow_nir", "swir1", "swir2"]

/-- `LCS_BANDS` keys (anthroprotect.py:109-134). -/
def lcsBandKeys : List String := ["corine", "modis_1", "cgls", "globcover"]

/-- `S2_SCL_BANDS` keys (anthroprotect.py:136-143). -/
def sclBandKeys : List String := ["scl"]

/-- `AnthroprotectLoader._create_metadata_document` (anthroprotect.py:397-425):
keywords by product-name prefix (the unmatched case logs an error and keeps
the base keywords), plus the fixed links entry. -/
def ap_metadata_document (odc_product_name : String) : Doc :=
  let base := ["AnthroProtect", "Wilderness", "Fennoscandia"]
  let keywords :=
    if pyStartsWith odc_product_name "s2_scl" then
      base ++ ["Sentinel-2 scene classiﬁcation map"]
    else if pyStartsWith odc_product_name "s2" then base ++ ["Sentinel-2"]
    else if pyStartsWith odc_product_name "lcs" then base ++ ["Land cover data"]
    else base
  Doc.obj
    [("product", Doc.obj [("name", Doc.str odc_product_name)]),
     ("keywords", Doc.arr (keywords.map Doc.str)),
     ("links", Doc.arr
       [Doc.obj
         [("type", Doc.str "text/html"),
          ("rel", Doc.str "canonical"),
          ("title", Doc.str "AnthroProtect dataset"),
          ("href", Doc.str "http://rs.ipb.uni-bonn.de/data/anthroprotect/"),
          ("hreflang", Doc.str "en-US")]])]

/-- Geospatial facts rasterio reads from an open GeoTIFF (external
collaborator): CRS string, bounds, GDAL-style 6-element transform, raster
height and width. -/
structure TifEnv where
  crs : String
  left : Int
  bottom : Int
  right : Int
  top : Int
  transform : List Int
  height : Int
  width : Int

/-- The `bands` dict built at anthroprotect.py:251-271: `dict.fromkeys` over
the product's band names, then each entry set to the file path and its
1-based positional band index. -/
def apBands (keys : List String) (dataset : String) : List (String × Doc) :=
  keys.enum.map
    (fun p => (p.2, Doc.obj [("path", Doc.str dataset), ("band", Doc.int (Int.ofNat p.1 + 1))]))

/-- The prefix dispatch at anthroprotect.py:251-265 choosing band keys,
platform and instrument; an unmatched product name leaves `bands` unbound,
surfacing as `NameError` at the loop that follows. -/
def ap_dataset_selection (odc_product_name : String) :
    Except PyErr (List String × Doc × Doc) :=
  if pyStartsWith odc_product_name "s2_scl" then
    Except.ok (sclBandKeys, Doc.str "Sentinel-2 scene classiﬁcation map", Doc.pynone)
  else if pyStartsWith odc_product_name "s2" then
    Except.ok (s2BandKeys, Doc.str "Sentinel-2 Level-2A",
      Doc.str "Multi-spectral instrument (MSI)")
  else if pyStartsWith odc_product_name "lcs" then
    Except.ok (lcsBandKeys,
      Doc.str ("Copernicus CORINE Land Cover dataset, MODIS Land Cover Type 1, " ++
        "Copernicus Global Land Service, ESA GlobCover"), Doc.pynone)
  else Except.error (PyErr.nameError "bands")

/-- `AnthroprotectLoader.create_dataset_metadata_eo3` (anthroprotect.py:243-341).
The band registry, platform and instrument are chosen by product-name
prefix; a name matching no prefix leaves `bands` unbound and Python raises
`NameError` at the following loop.  The transform is reordered into the
row-major 3x3 form.  As in the source there is no `'metadata'` key. -/
def ap_create_dataset_metadata_eo3 (env : TifEnv) (odc_product_name dataset : String) :
    Except PyErr Doc := do
  let sel ← ap_dataset_selection odc_product_name
  let bands := apBands sel.1 dataset
  let metadata := ap_metadata_document odc_product_name
  let t := fun (i : Nat) => Doc.int ((env.transform.get? i).getD 0)
  Except.ok (Doc.obj
    [("id", Doc.str (datasetId dataset)),
     ("product_name", Doc.str odc_product_name),
     ("crs", Doc.str env.crs),
     ("polygon", ringDoc
       [(env.left, env.bottom), (env.left, env.top), (env.right, env.top),
        (env.right, env.bottom), (env.left, env.bottom)]),
     ("shape", Doc.arr [Doc.int env.height, Doc.int env.width]),
     ("transform", Doc.arr
       [t 1, t 2, t 0, t 4, t 5, t 3, Doc.int 0, Doc.int 0, Doc.int 1]),
     ("bands", Doc.obj bands),
     ("platform", sel.2.1),
     ("instrument", sel.2.2),
     ("datetime", Doc.str "2020-08-01T12:00:00.00Z"),
     ("processing_datetime", Doc.str "2021-10-12T12:00:00.00Z"),
     ("file_format", Doc.str "GeoTIFF"),
     ("lineage", Doc.obj []),
     ("additions", Doc.obj
       [("keywords", (metadata.get? "keywords").getD Doc.pynone),
        ("links", (metadata.get? "links").getD Doc.pynone)])])

/-! ## Reconciliation engine: `odc.add_products_to_odc` / `odc.add_datasets_to_odc`

The ODC index and the filesystem are explicit state; the loader's
`create_dataset_metadata_eo3`, the sidecar-file write and the
`Doc2Dataset`-resolve-plus-index-add step are environment functions that
may raise (their exceptions are the ones the per-dataset `try` catches). -/

/-- Log events emitted by the reconciliation loops (one per `logger` call
that the claims observe). -/
inductive LogEvent where
  | dsMissing : String → LogEvent
  | dsAlready : String → LogEvent
  | dsAdded : String → LogEvent
  | dsWarn : String → LogEvent
  | prodAdded : String → LogEvent
  | prodAlready : String → LogEvent
  | prodMissingInMap : String → LogEvent
deriving DecidableEq

/-- Index plus filesystem state threaded through reconciliation.
`files` are the data files present on disk, `sidecars` the metadata yaml
files written so far (path to content), `writes` the chronological record
of file writes, `logs` the log record. -/
structure OdcState where
  idxProducts : List String
  idxDatasets : List String
  files : List String
  sidecars : List (String × Doc)
  writes : List String
  logs : List LogEvent

/-- `os.path.exists`: a data file or a previously written yaml file. -/
def pathExists (st : OdcState) (p : String) : Bool :=
  st.files.contains p || (alistGet? st.sidecars p).isSome

/-- Append one log record. -/
def addLog (st : OdcState) (e : LogEvent) : OdcState :=
  { st with logs := st.logs ++ [e] }

/-- `open(path, 'w')` + `yaml.dump`: (over)write a sidecar file. -/
def writeFile (st : OdcState) (p : String) (d : Doc) : OdcState :=
  { st with sidecars := alistSet st.sidecars p d, writes := st.writes ++ [p] }

/-- The fallible collaborators of the per-dataset `try` block:
the loader's metadata builder, the sidecar write, and the
resolver/index-add submission. -/
structure DsEnv where
  build : String → String → Except PyErr Doc
  writeOk : String → Bool
  submit : Doc → String → Except PyErr Unit

/-- Dataset sidecar path (odc.py:175-178): split the normalized dataset
path and put `<name>.odc-metadata.yaml` next to it. -/
def datasetYamlPath (dataset : String) : String :=
  let sp := pySplit (pyNormpath dataset)
  pyJoin sp.1 (sp.2 ++ ".odc-metadata.yaml")

/-- The id string of a dataset yaml document, as the index stores it. -/
def docIdString (d : Doc) : String :=
  match d.get? "id" with
  | Option.some (Doc.str s) => s
  | _ => ""

/-- The body of the per-dataset loop in `add_datasets_to_odc`
(odc.py:155-192): skip missing files, skip datasets already indexed under
`uuid5` of their path, otherwise try to build/write/submit, converting any
exception into a warning log. -/
def processDataset (env : DsEnv) (odc_product : String) (st : OdcState) (odc_dataset : String) :
    OdcState :=
  if !(pathExists st odc_dataset) then addLog st (LogEvent.dsMissing odc_dataset)
  else if st.idxDatasets.contains (datasetId odc_dataset) then
    addLog st (LogEvent.dsAlready (datasetId odc_dataset))
  else
    match env.build odc_product odc_dataset with
    | Except.error _ => addLog st (LogEvent.dsWarn odc_dataset)
    | Except.ok dataset_metadata =>
      match create_dataset_yaml_eo3 odc_product dataset_metadata with
      | Except.error _ => addLog st (LogEvent.dsWarn odc_dataset)
      | Except.ok dataset_yaml =>
        if !(env.writeOk (datasetYamlPath odc_dataset)) then
          addLog st (LogEvent.dsWarn odc_dataset)
        else
          match env.submit dataset_yaml (datasetYamlPath odc_dataset) with
          | Except.error _ =>
            addLog (writeFile st (datasetYamlPath odc_dataset) dataset_yaml)
              (LogEvent.dsWarn odc_dataset)
          | Except.ok _ =>
            addLog
              { writeFile st (datasetYamlPath odc_dataset) dataset_yaml with
                idxDatasets := st.idxDatasets ++ [docIdString dataset_yaml] }
              (LogEvent.dsAdded (docIdString dataset_yaml))

/-- `odc.add_datasets_to_odc` (odc.py:134-193): iterate the declared
product names; `odc_product_dataset_map[odc_product]` raises `KeyError`
for a name missing from the map (odc.py:155, outside any `try`), which
aborts the whole loop. -/
def add_datasets_to_odc (env : DsEnv) (product_names : List String)
    (product_dataset_map : List (String × List String)) (st : OdcState) :
    Except PyErr OdcState :=
  match product_names with
  | [] => Except.ok st
  | n :: rest =>
    match alistGet? product_dataset_map n with
    | Option.none => Except.error (PyErr.keyError n)
    | Option.some datasets =>
      add_datasets_to_odc env rest product_dataset_map
        (datasets.foldl (processDataset env n) st)

/-- `odc.add_products_to_odc` (odc.py:196-230): for each declared product
name not yet in the index, build its metadata (failures are uncaught),
write the product sidecar only if absent (first-writer-wins), and add the
document to the index. -/
def add_products_to_odc (buildProduct : String → Except PyErr Doc)
    (global_data_folder folder : String) (product_names : List String) (st : OdcState) :
    Except PyErr OdcState :=
  match product_names with
  | [] => Except.ok st
  | n :: rest => do
    let st1 ←
      if st.idxProducts.contains n then Except.ok (addLog st (LogEvent.prodAlready n))
      else do
        let product_metadata ← buildProduct n
        let product_yaml ← create_product_yaml_eo3 n product_metadata
        let product_filename :=
          pyJoin (pyJoin global_data_folder folder) (n ++ ".odc-product.yaml")
        let st' := if pathExists st product_filename then st
          else writeFile st product_filename product_yaml
        Except.ok (addLog { st' with idxProducts := st'.idxProducts ++ [n] }
          (LogEvent.prodAdded n))
    add_products_to_odc buildProduct global_data_folder folder rest st1

/-- The per-source order in `odc.main` (odc.py:373-374): products are
reconciled before datasets. -/
def run_odc_import (buildProduct : String → Except PyErr Doc) (env : DsEnv)
    (global_data_folder folder : String) (product_names : List String)
    (product_dataset_map : List (String × List String)) (st : OdcState) :
    Except PyErr OdcState :=
  match add_products_to_odc buildProduct global_data_folder folder product_names st with
  | Except.error e => Except.error e
  | Except.ok st1 => add_datasets_to_odc env product_names product_dataset_map st1

/-! ## `AnthroprotectLoader.create_product_dataset_map` (anthroprotect.py:181-217) -/

/-- `.tif`-filtered directory listing (anthroprotect.py:192-194). -/
def tifFilter (entries : List String) : List String :=
  entries.filter (fun e => pyEndsWith e ".tif")

/-- The product-name consistency check loop (anthroprotect.py:212-215):
one log line per declared name missing from the map. -/
def checkProductNames (product_names : List String)
    (m : List (String × List String)) : List LogEvent :=
  product_names.foldl
    (fun acc p => if (alistGet? m p).isSome then acc
      else acc ++ [LogEvent.prodMissingInMap p]) []

/-- The per-subfolder enumeration of anthroprotect.py:192-194: the
`.tif` entries of `tiles/<subfolder>`, each joined back onto the folder
path. -/
def ap_tiles_datasets (listdir : String → List String) (data_folder subfolder : String) :
    List String :=
  let fld := pyJoin (pyJoin data_folder "tiles") subfolder
  (tifFilter (listdir fld)).map (fun e => pyJoin fld e)

/-- `AnthroprotectLoader.create_product_dataset_map` with the first three
declared product names already fetched (anthroprotect.py:186-217): build
the three subfolder entries, assert the three basename lists are equal
(an `AssertionError` escapes), append the `investigative` `.tif` files to
the first product, then log declared names missing from the map.  The
fallback arms are unreachable: the three keys were just inserted. -/
def ap_map_with_names (listdir : String → List String) (data_folder : String)
    (product_names : List String) (n0 n1 n2 : String) :
    Except PyErr (List (String × List String) × List LogEvent) :=
  let ds0 := ap_tiles_datasets listdir data_folder "s2"
  let ds1 := ap_tiles_datasets listdir data_folder "s2_scl"
  let ds2 := ap_tiles_datasets listdir data_folder "lcs"
  let m3 := alistSet (alistSet (alistSet [] n0 ds0) n1 ds1) n2 ds2
  match alistGet? m3 n0, alistGet? m3 n1, alistGet? m3 n2 with
  | Option.some l0, Option.some l1, Option.some l2 =>
    if l0.map pyBasename = l1.map pyBasename ∧ l1.map pyBasename = l2.map pyBasename then
      let invFld := pyJoin data_folder "investigative"
      let inv := (tifFilter (listdir invFld)).map (fun e => pyJoin invFld e)
      match alistGet? m3 n0 with
      | Option.some cur =>
        let m4 := alistSet m3 n0 (cur ++ inv)
        Except.ok (m4, checkProductNames product_names m4)
      | Option.none => Except.error PyErr.typeError
    else Except.error PyErr.assertError
  | _, _, _ => Except.error (PyErr.keyError n0)

/-- `AnthroprotectLoader.create_product_dataset_map` (anthroprotect.py:181-217):
fewer than three declared product names is an `IndexError` at
`self.product_names[idx]`; otherwise see `ap_map_with_names`.  `listdir`
is the filesystem environment. -/
def ap_create_product_dataset_map (listdir : String → List String)
    (data_folder : String) (product_names : List String) :
    Except PyErr (List (String × List String) × List LogEvent) :=
  match product_names.get? 0, product_names.get? 1, product_names.get? 2 with
  | Option.some n0, Option.some n1, Option.some n2 =>
    ap_map_with_names listdir data_folder product_names n0 n1 n2
  | _, _, _ => Except.error PyErr.indexError

/-- The default `data_folder` for the AnthroProtect source:
`join(BASE_FOLDER, DATA_FOLDER, 'anthroprotect')` with the defaults from
`config.py` and `AnthroprotectLoader.__init__`. -/
def apDataFolder : String := pyJoin (pyJoin "/odc" "data") "anthroprotect"

/-- Environment in which the four folders the AnthroProtect map reads have
the given listings (everything else empty). -/
def apListdir (s2L sclL lcsL invL : List String) (p : String) : List String :=
  if p = "/odc/data/anthroprotect/tiles/s2" then s2L
  else if p = "/odc/data/anthroprotect/tiles/s2_scl" then sclL
  else if p = "/odc/data/anthroprotect/tiles/lcs" then lcsL
  else if p = "/odc/data/anthroprotect/investigative" then invL
  else []

/-! ## `AnthroprotectLoader.__init__` / `AnthroprotectLoader.download`
(anthroprotect.py:166-179, 343-438) -/

/-- A Python value as stored in `self.force_download`: `os.getenv` returns
the raw string when the variable is set, else the given default (here the
bool `False`). -/
inductive PyVal where
  | str : String → PyVal
  | bool : Bool → PyVal
deriving DecidableEq

/-- Python truthiness for the values `force_download` can hold: a string is
truthy iff non-empty. -/
def truthy : PyVal → Bool
  | PyVal.str s => s ≠ ""
  | PyVal.bool b => b

/-- `self.force_download = os.getenv('ANTHROPROTECT_FORCE_DOWNLOAD', False)`
(anthroprotect.py:172): the raw environment string when set, `False`
otherwise. -/
def ap_init_force_download (getenv : String → Option String) : PyVal :=
  match getenv "ANTHROPROTECT_FORCE_DOWNLOAD" with
  | Option.some s => PyVal.str s
  | Option.none => PyVal.bool false

/-- Filesystem/network actions `AnthroprotectLoader.download` performs, in
order. -/
inductive FsAct where
  | rmtree : String → FsAct
  | removeFile : String → FsAct
  | fetch : String → FsAct
  | unzipArch : String → FsAct
deriving DecidableEq

/-- Outcomes of the external collaborators of `download`: prior existence
of the output folder and archive, success of the streamed HTTP transfer,
of the SHA-256 comparison, and of the archive extraction. -/
structure DlEnv where
  outFolderExists : Bool
  zipFileExists : Bool
  fetchOk : Bool
  hashOk : Bool
  unzipOk : Bool

/-- `AnthroprotectLoader._check_sha256` (anthroprotect.py:390-395): on
mismatch the archive is deleted; the caller ignores the return value. -/
def ap_check_sha256_acts (hashOk : Bool) (zip_file : String) : List FsAct :=
  if hashOk then [] else [FsAct.removeFile zip_file]

/-- `AnthroprotectLoader._unzip_anthroprotect` (anthroprotect.py:427-438):
extraction followed by archive removal on success; an extraction error is
caught and reported as `False`. -/
def ap_unzip_acts (unzipOk : Bool) (zip_file : String) : List FsAct × Bool :=
  if unzipOk then ([FsAct.unzipArch zip_file, FsAct.removeFile zip_file], true)
  else ([FsAct.unzipArch zip_file], false)

/-- The download-and-unzip tail of `download` (anthroprotect.py:372-388):
fetch the archive (failure caught, `False`), compare its hash (mismatch
removes it but is otherwise ignored), then try to unzip. -/
def ap_download_tail (env : DlEnv) (zip_file url : String) : List FsAct × Bool :=
  if env.fetchOk then
    let c := ap_check_sha256_acts env.hashOk zip_file
    let u := ap_unzip_acts env.unzipOk zip_file
    (FsAct.fetch url :: (c ++ u.1), u.2)
  else ([FsAct.fetch url], false)

/-- `AnthroprotectLoader.download` (anthroprotect.py:343-388): a truthy
`force_download` deletes the existing output folder and archive and falls
through to the fresh download; otherwise an existing output folder returns
immediately, an existing archive is verified and unzipped, and only then a
fresh download happens. -/
def ap_download (force_download : PyVal) (env : DlEnv)
    (global_data_folder zipName folderName url : String) : List FsAct × Bool :=
  let zip_file := pyJoin global_data_folder zipName
  let out_folder := pyJoin global_data_folder folderName
  if truthy force_download then
    let del1 := if env.outFolderExists then [FsAct.rmtree out_folder] else []
    let del2 := if env.zipFileExists then [FsAct.removeFile zip_file] else []
    let tail := ap_download_tail env zip_file url
    (del1 ++ del2 ++ tail.1, tail.2)
  else if env.outFolderExists then ([], true)
  else if env.zipFileExists then
    let c := ap_check_sha256_acts env.hashOk zip_file
    let u := ap_unzip_acts env.unzipOk zip_file
    (c ++ u.1, u.2)
  else ap_download_tail env zip_file url

/-- True exactly on the skip log emitted for a vanished dataset file. -/
def LogEvent.isMissing : LogEvent → Bool
  | LogEvent.dsMissing _ => true
  | _ => false

/-- Log records that report an item as already present or missing —
the ones a re-run against an unchanged source and index may emit. -/
def LogEvent.isNoOp (e : LogEvent) : Prop :=
  (∃ n, e = LogEvent.prodAlready n) ∨ (∃ p, e = LogEvent.dsMissing p) ∨
    (∃ i, e = LogEvent.dsAlready i)

/-! ## Concrete environments for witnesses and counterexamples -/

/-- A small concrete GeoTIFF observation. -/
def tifEnv0 : TifEnv :=
  { crs := "EPSG:32635", left := 0, bottom := 0, right := 1, top := 1,
    transform := [0, 1, 0, 0, 0, -1], height := 2, width := 2 }

/-- A small concrete NetCDF observation. -/
def ncEnv0 : NcEnv :=
  { latitudes := [54, 55], longitudes := [10, 11], crs := "EPSG:4326",
    transform := [1, 0, 0, 0, 1, 0], shapeRows := 2, shapeCols := 3,
    time0 := "2020-01-01T00:00:00" }

/-- A loader metadata dict carrying every key `create_dataset_yaml_eo3`
needs, including the `metadata` document (what the builder's own header
note demands of loaders). -/
def stubDatasetMetadata (odc_product_name dataset : String) : Doc :=
  Doc.obj
    [("metadata", Doc.obj [("product", Doc.obj [("name", Doc.str odc_product_name)])]),
     ("bands", Doc.obj []),
     ("id", Doc.str (datasetId dataset)),
     ("crs", Doc.str "EPSG:4326"),
     ("polygon", Doc.arr []),
     ("shape", Doc.arr []),
     ("transform", Doc.arr []),
     ("platform", Doc.str "na"),
     ("instrument", Doc.str "na"),
     ("datetime", Doc.str "2020-01-01"),
     ("processing_datetime", Doc.str "2020-01-01"),
     ("file_format", Doc.str "GeoTIFF")]

/-- A per-dataset environment in which building, writing and submitting
all succeed. -/
def okDsEnv : DsEnv :=
  { build := fun odc_product_name dataset =>
      Except.ok (stubDatasetMetadata odc_product_name dataset),
    writeOk := fun _ => true,
    submit := fun _ _ => Except.ok () }

/-- Five dataset file references of which only `#3` is missing on disk. -/
def fiveBatchState : OdcState :=
  { idxProducts := [], idxDatasets := [],
    files := ["/data/d1.tif", "/data/d2.tif", "/data/d4.tif", "/data/d5.tif"],
    sidecars := [], writes := [], logs := [] }

/-- A product metadata dict satisfying `create_product_yaml_eo3`'s
expectations (the name triple matches). -/
def stubProductMetadata (odc_product_name : String) : Doc :=
  Doc.obj
    [("name", Doc.str odc_product_name),
     ("description", Doc.str odc_product_name),
     ("metadata", Doc.obj [("product", Doc.obj [("name", Doc.str odc_product_name)])]),
     ("measurements", Doc.obj [])]

/-- A product-metadata builder that always succeeds. -/
def okProductBuild : String → Except PyErr Doc :=
  fun odc_product_name => Except.ok (stubProductMetadata odc_product_name)

/-- A state in which product `p1` and the dataset at `/data/d1.tif` are
already indexed and the product sidecar file already exists. -/
def c3IdxState : OdcState :=
  { idxProducts := ["p1"],
    idxDatasets := [datasetId "/data/d1.tif"],
    files := ["/data/d1.tif"],
    sidecars := [("/odc/data/src1/p1.odc-product.yaml", Doc.pynone)],
    writes := [], logs := [] }

/-- The tiled-raster dataset document built for product `s2` over
`tifEnv0` (total by construction; the `Doc.pynone` default is unused). -/
def apS2Doc : Doc :=
  match ap_create_dataset_metadata_eo3 tifEnv0 "s2" "/a.tif" with
  | Except.ok x => x
  | Except.error _ => Doc.pynone

/-- Strings without path separators, as `os.listdir` returns them. -/
def NoSlash (s : String) : Prop := ∀ c ∈ s.data, c ≠ '/'

/-- A fresh state: empty index, no files on disk, nothing written. -/
def emptyOdcState : OdcState :=
  { idxProducts := [], idxDatasets := [], files := [], sidecars := [],
    writes := [], logs := [] }

/-- A per-dataset environment whose loader always raises (the submission
side never gets reached). -/
def failingDsEnv : DsEnv :=
  { build := fun _ _ => Except.error (PyErr.other "io"),
    writeOk := fun _ => true,
    submit := fun _ _ => Except.ok () }

/-! ## Claim theorems -/

/-- `takeWhile` of non-slash characters stops exactly at an appended
slash. -/
theorem takeWhile_until_slash (l m : List Char) (h : ∀ c ∈ l, c ≠ '/') :
    (l ++ '/' :: m).takeWhile (fun c => c != '/') = l := by
  induction l with
  | nil => simp [List.takeWhile]
  | cons c cs ih =>
    have hc : (c != '/') = true := by
      simpa using h c (by simp)
    simp only [List.cons_append, List.takeWhile, hc, List.append_eq]
    rw [ih (fun x hx => h x (by simp [hx]))]

/-- `os.path.basename` undoes `os.path.join` onto a slash-free entry. -/
theorem pyBasename_join (P e : String) (hP0 : P.data ≠ [])
    (hP1 : P.data.getLast? ≠ Option.some '/') (he : NoSlash e) :
    pyBasename (pyJoin P e) = e := by
  have hhead : ¬ (e.data.head? = Option.some '/') := by
    intro hk
    cases hd : e.data with
    | nil => rw [hd] at hk; cases hk
    | cons c cs =>
      rw [hd] at hk
      have hceq : c = '/' := by simpa using hk
      exact he c (by simp [hd, hceq]) hceq
  have hj : pyJoin P e = P ++ "/" ++ e := by
    unfold pyJoin
    rw [if_neg hhead, if_neg hP0, if_neg hP1]
  rw [hj]
  unfold pyBasename
  have hdata : (P ++ "/" ++ e).data = P.data ++ '/' :: e.data := by
    simp [String.data_append]
  rw [hdata]
  have hrev : (P.data ++ '/' :: e.data).reverse =
      e.data.reverse ++ '/' :: P.data.reverse := by
    simp
  rw [hrev]
  rw [takeWhile_until_slash _ _ (fun c hc => he c (List.mem_reverse.mp hc))]
  simp [List.reverse_reverse]

/-- Mapping `basename` over listing entries joined onto a folder recovers
the entries. -/
theorem map_pyBasename_join (fld : String) (hP0 : fld.data ≠ [])
    (hP1 : fld.data.getLast? ≠ Option.some '/') (l : List String)
    (h : ∀ e ∈ l, NoSlash e) :
    (l.map (fun e => pyJoin fld e)).map pyBasename = l := by
  rw [List.map_map]
  have hcg : ∀ e ∈ l, (pyBasename ∘ fun e => pyJoin fld e) e = id e := by
    intro e he
    exact pyBasename_join fld e hP0 hP1 (h e he)
  rw [List.map_congr_left hcg, List.map_id]

/-- With the default product names, `create_product_dataset_map` reduces
to the basename-list assertion guarding the assembled map. -/
theorem ap_map_default_names_eq (listdir : String → List String) (df : String)
    (names : List String) :
    ap_map_with_names listdir df names "s2" "s2_scl" "lcs" =
      (if (ap_tiles_datasets listdir df "s2").map pyBasename =
            (ap_tiles_datasets listdir df "s2_scl").map pyBasename ∧
          (ap_tiles_datasets listdir df "s2_scl").map pyBasename =
            (ap_tiles_datasets listdir df "lcs").map pyBasename then
        Except.ok
          ([("s2", ap_tiles_datasets listdir df "s2" ++
              (tifFilter (listdir (pyJoin df "investigative"))).map
                (fun e => pyJoin (pyJoin df "investigative") e)),
            ("s2_scl", ap_tiles_datasets listdir df "s2_scl"),
            ("lcs", ap_tiles_datasets listdir df "lcs")],
           checkProductNames names
             [("s2", ap_tiles_datasets listdir df "s2" ++
                (tifFilter (listdir (pyJoin df "investigative"))).map
                  (fun e => pyJoin (pyJoin df "investigative") e)),
              ("s2_scl", ap_tiles_datasets listdir df "s2_scl"),
              ("lcs", ap_tiles_datasets listdir df "lcs")])
      else Except.error PyErr.assertError) := rfl

/-- C5: building the product-dataset map fails fatally with an
`AssertionError` whenever the sets of `.tif` filenames in the parallel
subfolders `s2`, `s2_scl` and `lcs` differ — by even one filename in any
of the three (anthroprotect.py:197-200; nothing catches the assertion). -/
theorem c5_parallel_folder_assert (s2L sclL lcsL invL : List String)
    (hns : ∀ e, e ∈ s2L ++ sclL ++ lcsL → NoSlash e)
    (hdiff : (∃ x, ¬ (x ∈ tifFilter s2L ↔ x ∈ tifFilter sclL)) ∨
             (∃ x, ¬ (x ∈ tifFilter sclL ↔ x ∈ tifFilter lcsL)) ∨
             (∃ x, ¬ (x ∈ tifFilter s2L ↔ x ∈ tifFilter lcsL))) :
    ap_create_product_dataset_map (apListdir s2L sclL lcsL invL) apDataFolder
      ["s2", "s2_scl", "lcs"] = Except.error PyErr.assertError := by
  have e0 : ap_tiles_datasets (apListdir s2L sclL lcsL invL) apDataFolder "s2" =
      (tifFilter s2L).map (fun e => pyJoin "/odc/data/anthroprotect/tiles/s2" e) := rfl
  have e1 : ap_tiles_datasets (apListdir s2L sclL lcsL invL) apDataFolder "s2_scl" =
      (tifFilter sclL).map (fun e => pyJoin "/odc/data/anthroprotect/tiles/s2_scl" e) := rfl
  have e2 : ap_tiles_datasets (apListdir s2L sclL lcsL invL) apDataFolder "lcs" =
      (tifFilter lcsL).map (fun e => pyJoin "/odc/data/anthroprotect/tiles/lcs" e) := rfl
  have hb0 : ((tifFilter s2L).map
      (fun e => pyJoin "/odc/data/anthroprotect/tiles/s2" e)).map pyBasename =
        tifFilter s2L :=
    map_pyBasename_join _ (by decide) (by decide) _
      (fun e he => hns e (by simp [List.mem_append, (List.mem_filter.mp he).1]))
  have hb1 : ((tifFilter sclL).map
      (fun e => pyJoin "/odc/data/anthroprotect/tiles/s2_scl" e)).map pyBasename =
        tifFilter sclL :=
    map_pyBasename_join _ (by decide) (by decide) _
      (fun e he => hns e (by simp [List.mem_append, (List.mem_filter.mp he).1]))
  have hb2 : ((tifFilter lcsL).map
      (fun e => pyJoin "/odc/data/anthroprotect/tiles/lcs" e)).map pyBasename =
        tifFilter lcsL :=
    map_pyBasename_join _ (by decide) (by decide) _
      (fun e he => hns e (by simp [List.mem_append, (List.mem_filter.mp he).1]))
  have hcond : ¬ ((ap_tiles_datasets (apListdir s2L sclL lcsL invL) apDataFolder "s2").map
        pyBasename =
      (ap_tiles_datasets (apListdir s2L sclL lcsL invL) apDataFolder "s2_scl").map
        pyBasename ∧
      (ap_tiles_datasets (apListdir s2L sclL lcsL invL) apDataFolder "s2_scl").map
        pyBasename =
      (ap_tiles_datasets (apListdir s2L sclL lcsL invL) apDataFolder "lcs").map
        pyBasename) := by
    rintro ⟨hA, hB⟩
    rw [e0, e1, hb0, hb1] at hA
    rw [e1, e2, hb1, hb2] at hB
    rcases hdiff with ⟨x, hx⟩ | ⟨x, hx⟩ | ⟨x, hx⟩
    · exact hx (by rw [hA])
    · exact hx (by rw [hB])
    · exact hx (by rw [hA, hB])
  have h0 : ap_create_product_dataset_map (apListdir s2L sclL lcsL invL) apDataFolder
      ["s2", "s2_scl", "lcs"] =
      ap_map_with_names (apListdir s2L sclL lcsL invL) apDataFolder
        ["s2", "s2_scl", "lcs"] "s2" "s2_scl" "lcs" := rfl
  rw [h0, ap_map_default_names_eq, if_neg hcond]

/-- C5 witness: subfolders `[a.tif, b.tif]` / `[a.tif]` / `[a.tif]` —
one extra filename in `s2` — abort map construction. -/
theorem c5_parallel_folder_assert_witness :
    ap_create_product_dataset_map (apListdir ["a.tif", "b.tif"] ["a.tif"] ["a.tif"] [])
      apDataFolder ["s2", "s2_scl", "lcs"] = Except.error PyErr.assertError :=
  c5_parallel_folder_assert ["a.tif", "b.tif"] ["a.tif"] ["a.tif"] []
    (by
      show ∀ e ∈ ["a.tif", "b.tif"] ++ ["a.tif"] ++ ["a.tif"], ∀ c ∈ e.data, c ≠ '/'
      decide)
    (Or.inl ⟨"b.tif", by decide⟩)

/-- C1: the dataset id is a pure deterministic function of the file path
alone — `uuid5` over the URL namespace of the path string, exactly the
value `datasetId path` that `add_datasets_to_odc` (odc.py:160) consults
the index with.  The NetCDF loader's document carries that id whatever
the file's content (`NcEnv`) is, so two computations from the same path —
even against different file contents — agree; likewise the tiled-raster
loader's documents. -/
theorem c1_dataset_id_deterministic :
    (∀ (measurementKeys : List String) (env : NcEnv) (odc_product_name path : String),
      (netcdf_create_dataset_metadata_eo3 measurementKeys env odc_product_name path).get? "id" =
        Option.some (Doc.str (datasetId path)))
    ∧ (∀ (measurementKeys : List String) (env env' : NcEnv) (pn pn' path : String),
      (netcdf_create_dataset_metadata_eo3 measurementKeys env pn path).get? "id" =
        (netcdf_create_dataset_metadata_eo3 measurementKeys env' pn' path).get? "id")
    ∧ (∀ (env : TifEnv) (path : String),
      (ap_create_dataset_metadata_eo3 env "s2" path).map (fun d => d.get? "id") =
        Except.ok (Option.some (Doc.str (datasetId path)))) :=
  ⟨fun _ _ _ _ => rfl, fun _ _ _ _ _ _ => rfl, fun _ _ => rfl⟩

/-- C4: no Dataset Descriptor can carry the product's metadata document,
because none is ever successfully built: every loader's
`create_dataset_metadata_eo3` omits the `'metadata'` key (the NetCDF
loader computes the metadata document at netcdf.py:99 and discards it),
so `create_dataset_yaml_eo3` raises `KeyError('metadata')` on every
dataset of every product — contradicting the header note of odc.py
(lines 28-32) that the product's `metadata` key-value pairs must appear
in every dataset yaml. -/
theorem c4_dataset_document_never_built :
    (∀ (measurementKeys : List String) (env : NcEnv) (odc_product_name path : String),
      create_dataset_yaml_eo3 odc_product_name
          (netcdf_create_dataset_metadata_eo3 measurementKeys env odc_product_name path) =
        Except.error (PyErr.keyError "metadata"))
    ∧ (∀ (env : TifEnv) (path : String),
      (ap_create_dataset_metadata_eo3 env "s2" path).bind (create_dataset_yaml_eo3 "s2") =
        Except.error (PyErr.keyError "metadata")) :=
  ⟨fun _ _ _ _ => rfl, fun _ _ => rfl⟩

/-- C6: with each tile subfolder holding exactly `a.tif` and `b.tif` and
the investigative folder holding `c.tif`, the map sends `s2` to
`[a, b, c]` (investigative files appended to the first product only,
after the consistency assertion) and `s2_scl`, `lcs` to `[a, b]`. -/
theorem c6_product_dataset_map_scenario :
    ap_create_product_dataset_map
        (apListdir ["a.tif", "b.tif"] ["a.tif", "b.tif"] ["a.tif", "b.tif"] ["c.tif"])
        apDataFolder ["s2", "s2_scl", "lcs"] =
      Except.ok
        ([("s2",
            ["/odc/data/anthroprotect/tiles/s2/a.tif",
             "/odc/data/anthroprotect/tiles/s2/b.tif",
             "/odc/data/anthroprotect/investigative/c.tif"]),
          ("s2_scl",
            ["/odc/data/anthroprotect/tiles/s2_scl/a.tif",
             "/odc/data/anthroprotect/tiles/s2_scl/b.tif"]),
          ("lcs",
            ["/odc/data/anthroprotect/tiles/lcs/a.tif",
             "/odc/data/anthroprotect/tiles/lcs/b.tif"])],
         []) := by
  rfl

/-- Every branch of the per-dataset loop body — skip, already-indexed,
build failure, document failure, write failure, submit failure, success —
emits exactly one log record and returns normally. -/
theorem processDataset_logs (env : DsEnv) (prod : String) (st : OdcState) (p : String) :
    ∃ e, (processDataset env prod st p).logs = st.logs ++ [e] := by
  unfold processDataset
  repeat' split
  all_goals exact ⟨_, rfl⟩

/-- The per-product dataset fold visits every dataset, adding exactly one
log record each, whatever the per-dataset outcomes are. -/
theorem foldl_processDataset_logs (env : DsEnv) (prod : String) (paths : List String)
    (st : OdcState) :
    ((paths.foldl (processDataset env prod) st).logs).length =
      st.logs.length + paths.length := by
  induction paths generalizing st with
  | nil => simp
  | cons p rest ih =>
    rcases processDataset_logs env prod st p with ⟨e, he⟩
    simp [List.foldl_cons, ih, he]
    omega

set_option maxRecDepth 16384 in
/-- C2: against an environment whose loader and index submissions
succeed, the batch of five dataset references with only `#3` missing on
disk registers datasets 1, 2, 4, 5 and logs exactly one skip (for `#3`);
and in general the loop is total — every dataset of the batch yields
exactly one log record (skip, already, warning or added), whatever the
per-dataset build/write/submit outcomes, so no per-dataset exception
escapes the fold. -/
theorem c2_partial_failure_tolerance :
    (∃ stF,
      add_datasets_to_odc okDsEnv ["p1"]
          [("p1", ["/data/d1.tif", "/data/d2.tif", "/data/d3.tif", "/data/d4.tif",
                   "/data/d5.tif"])] fiveBatchState =
        Except.ok stF ∧
      stF.idxDatasets = [datasetId "/data/d1.tif", datasetId "/data/d2.tif",
        datasetId "/data/d4.tif", datasetId "/data/d5.tif"] ∧
      stF.logs = [LogEvent.dsAdded (datasetId "/data/d1.tif"),
        LogEvent.dsAdded (datasetId "/data/d2.tif"),
        LogEvent.dsMissing "/data/d3.tif",
        LogEvent.dsAdded (datasetId "/data/d4.tif"),
        LogEvent.dsAdded (datasetId "/data/d5.tif")] ∧
      (stF.logs.filter LogEvent.isMissing).length = 1)
    ∧ (∀ (env : DsEnv) (prod : String) (paths : List String) (st : OdcState),
      ((paths.foldl (processDataset env prod) st).logs).length =
        st.logs.length + paths.length) := by
  constructor
  · refine ⟨_, rfl, by decide, by decide, by decide⟩
  · exact foldl_processDataset_logs

/-- Unfolding the accumulator of the map-consistency check loop. -/
theorem checkProductNames_aux (m : List (String × List String)) (names : List String)
    (acc : List LogEvent) :
    names.foldl
      (fun acc p => if (alistGet? m p).isSome then acc
        else acc ++ [LogEvent.prodMissingInMap p]) acc =
      acc ++ (names.filter (fun p => !(alistGet? m p).isSome)).map
        LogEvent.prodMissingInMap := by
  induction names generalizing acc with
  | nil => simp
  | cons n rest ih =>
    by_cases hn : (alistGet? m n).isSome
    · have hne : alistGet? m n ≠ Option.none := Option.isSome_iff_ne_none.mp hn
      simp [List.foldl_cons, List.filter_cons, hn, hne, ih]
    · have heq : alistGet? m n = Option.none := Option.not_isSome_iff_eq_none.mp hn
      simp [List.foldl_cons, List.filter_cons, hn, heq, ih]

/-- The consistency check loop logs exactly the declared names missing
from the map, once each, in declaration order. -/
theorem checkProductNames_eq (names : List String) (m : List (String × List String)) :
    checkProductNames names m =
      (names.filter (fun p => !(alistGet? m p).isSome)).map LogEvent.prodMissingInMap := by
  unfold checkProductNames
  rw [checkProductNames_aux]
  simp

/-- A declared product name missing from the product-dataset map makes
`add_datasets_to_odc` raise `KeyError` (odc.py:155 is outside the `try`). -/
theorem add_datasets_missing_key (env : DsEnv) (names : List String)
    (m : List (String × List String)) (st : OdcState)
    (h : ∃ n ∈ names, alistGet? m n = Option.none) :
    ∃ k, add_datasets_to_odc env names m st = Except.error (PyErr.keyError k) ∧
      alistGet? m k = Option.none := by
  induction names generalizing st with
  | nil => rcases h with ⟨n, hn, _⟩; cases hn
  | cons n rest ih =>
    cases hl : alistGet? m n with
    | none => exact ⟨n, by simp [add_datasets_to_odc, hl], hl⟩
    | some ds =>
      rcases h with ⟨x, hx, hxn⟩
      rcases List.mem_cons.mp hx with rfl | hxr
      · rw [hl] at hxn; cases hxn
      · rcases ih (ds.foldl (processDataset env n) st) ⟨x, hxr, hxn⟩ with ⟨k, hk, hk2⟩
        exact ⟨k, by simp [add_datasets_to_odc, hl, hk], hk2⟩

/-- C9 counterexample: with the declared names `s2 s2_scl lcs extra`
(the product-name override is a space-separated environment list), map
construction succeeds and logs exactly one line for `extra` — but the map
has no `extra` entry, and dataset reconciliation then dies with an
uncaught `KeyError('extra')` instead of warning and continuing. -/
theorem c9_missing_entry_counterexample :
    ∃ m, ap_create_product_dataset_map (apListdir ["a.tif"] ["a.tif"] ["a.tif"] [])
        apDataFolder ["s2", "s2_scl", "lcs", "extra"] =
      Except.ok (m, [LogEvent.prodMissingInMap "extra"]) ∧
    alistGet? m "extra" = Option.none ∧
    add_datasets_to_odc failingDsEnv ["s2", "s2_scl", "lcs", "extra"] m emptyOdcState =
      Except.error (PyErr.keyError "extra") := by
  refine ⟨_, rfl, rfl, rfl⟩

/-- C9 amended: map construction logs exactly one line per declared name
missing from the map (and nothing else), but the map then still lacks
those entries, and `add_datasets_to_odc` raises an uncaught `KeyError`
at the first missing name — the missing entry is fatal to dataset
reconciliation, not a mere warning. -/
theorem c9_missing_entry_amended :
    (∀ (names : List String) (m : List (String × List String)),
      checkProductNames names m =
        (names.filter (fun p => !(alistGet? m p).isSome)).map LogEvent.prodMissingInMap)
    ∧ (∀ (env : DsEnv) (names : List String) (m : List (String × List String))
        (st : OdcState),
      (∃ n ∈ names, alistGet? m n = Option.none) →
      ∃ k, add_datasets_to_odc env names m st = Except.error (PyErr.keyError k) ∧
        alistGet? m k = Option.none) :=
  ⟨checkProductNames_eq, add_datasets_missing_key⟩

/-- C9 witness: both halves at a concrete map missing the name `extra`. -/
theorem c9_missing_entry_amended_witness :
    checkProductNames ["waves", "extra"] [("waves", [])] =
        (["waves", "extra"].filter
          (fun p => !(alistGet? [("waves", ([] : List String))] p).isSome)).map
          LogEvent.prodMissingInMap ∧
    ∃ k, add_datasets_to_odc failingDsEnv ["waves", "extra"] [("waves", [])]
        emptyOdcState = Except.error (PyErr.keyError k) ∧
      alistGet? [("waves", ([] : List String))] k = Option.none :=
  ⟨c9_missing_entry_amended.1 ["waves", "extra"] [("waves", [])],
   c9_missing_entry_amended.2 failingDsEnv ["waves", "extra"] [("waves", [])]
     emptyOdcState ⟨"extra", by decide, by decide⟩⟩

/-- A dataset whose file exists but whose id is already indexed — or
whose file is gone — is only logged; the state is otherwise untouched. -/
theorem processDataset_noop (env : DsEnv) (prod : String) (st : OdcState) (p : String)
    (h : pathExists st p = true → st.idxDatasets.contains (datasetId p) = true) :
    ∃ e, processDataset env prod st p = addLog st e ∧ LogEvent.isNoOp e := by
  by_cases hex : pathExists st p = true
  · refine ⟨LogEvent.dsAlready (datasetId p), ?_, Or.inr (Or.inr ⟨_, rfl⟩)⟩
    unfold processDataset
    simp [hex, h hex]
    intro hmem
    exact absurd (by simpa using h hex) hmem
  · have hex' : pathExists st p = false := by
      cases hpe : pathExists st p
      · rfl
      · exact absurd hpe hex
    refine ⟨LogEvent.dsMissing p, ?_, Or.inr (Or.inl ⟨_, rfl⟩)⟩
    unfold processDataset
    simp [hex']

/-- Folding the per-dataset loop over datasets that are all missing or
already indexed only appends no-op log records. -/
theorem foldl_processDataset_noop (env : DsEnv) (prod : String) (ds : List String)
    (st : OdcState)
    (h : ∀ p ∈ ds, pathExists st p = true → st.idxDatasets.contains (datasetId p) = true) :
    ∃ ext, ds.foldl (processDataset env prod) st = { st with logs := st.logs ++ ext } ∧
      ∀ e ∈ ext, LogEvent.isNoOp e := by
  induction ds generalizing st with
  | nil => exact ⟨[], by simp, by simp⟩
  | cons p rest ih =>
    rcases processDataset_noop env prod st p (h p (by simp)) with ⟨e, he, hno⟩
    have h' : ∀ q ∈ rest, pathExists (addLog st e) q = true →
        (addLog st e).idxDatasets.contains (datasetId q) = true :=
      fun q hq hx => h q (by simp [hq]) hx
    rcases ih (addLog st e) h' with ⟨ext', hex', hno'⟩
    refine ⟨e :: ext', ?_, ?_⟩
    · rw [List.foldl_cons, he, hex']
      simp [addLog]
    · intro x hx
      rcases List.mem_cons.mp hx with rfl | hx'
      · exact hno
      · exact hno' x hx'

/-- `add_datasets_to_odc` over a complete map whose existing datasets are
all indexed: no insertion, no write, only no-op logs. -/
theorem add_datasets_noop (env : DsEnv) (names : List String)
    (m : List (String × List String)) (st : OdcState)
    (h3 : ∀ n ∈ names, (alistGet? m n).isSome)
    (h2 : ∀ n ds, alistGet? m n = Option.some ds → ∀ p ∈ ds,
      pathExists st p = true → st.idxDatasets.contains (datasetId p) = true) :
    ∃ ext, add_datasets_to_odc env names m st =
        Except.ok { st with logs := st.logs ++ ext } ∧
      ∀ e ∈ ext, LogEvent.isNoOp e := by
  induction names generalizing st with
  | nil => exact ⟨[], by simp [add_datasets_to_odc], by simp⟩
  | cons n rest ih =>
    rcases Option.isSome_iff_exists.mp (h3 n (by simp)) with ⟨ds, hds⟩
    rcases foldl_processDataset_noop env n ds st (h2 n ds hds) with ⟨ext1, hfold, hno1⟩
    have h2' : ∀ n' ds', alistGet? m n' = Option.some ds' → ∀ p ∈ ds',
        pathExists { st with logs := st.logs ++ ext1 } p = true →
        ({ st with logs := st.logs ++ ext1 } : OdcState).idxDatasets.contains
          (datasetId p) = true :=
      fun n' ds' hds' p hp hx => h2 n' ds' hds' p hp hx
    rcases ih { st with logs := st.logs ++ ext1 } (fun x hx => h3 x (by simp [hx])) h2'
      with ⟨ext2, hrest, hno2⟩
    refine ⟨ext1 ++ ext2, ?_, ?_⟩
    · unfold add_datasets_to_odc
      rw [hds]
      show add_datasets_to_odc env rest m (List.foldl (processDataset env n) st ds) =
        Except.ok { st with logs := st.logs ++ (ext1 ++ ext2) }
      rw [hfold, hrest]
      simp
    · intro x hx
      rcases List.mem_append.mp hx with hx1 | hx2
      · exact hno1 x hx1
      · exact hno2 x hx2

/-- `add_products_to_odc` over products that are all indexed: no
insertion, no write, only already-present logs. -/
theorem add_products_noop (bP : String → Except PyErr Doc) (gdf fld : String)
    (names : List String) (st : OdcState)
    (h1 : ∀ n ∈ names, st.idxProducts.contains n = true) :
    ∃ ext, add_products_to_odc bP gdf fld names st =
        Except.ok { st with logs := st.logs ++ ext } ∧
      ∀ e ∈ ext, LogEvent.isNoOp e := by
  induction names generalizing st with
  | nil => exact ⟨[], by simp [add_products_to_odc], by simp⟩
  | cons n rest ih =>
    have hn := h1 n (by simp)
    rcases ih (addLog st (LogEvent.prodAlready n))
      (fun x hx => h1 x (by simp [hx])) with ⟨ext', hrest, hno'⟩
    refine ⟨LogEvent.prodAlready n :: ext', ?_, ?_⟩
    · unfold add_products_to_odc
      rw [if_pos hn]
      show add_products_to_odc bP gdf fld rest (addLog st (LogEvent.prodAlready n)) =
        Except.ok { st with logs := st.logs ++ (LogEvent.prodAlready n :: ext') }
      rw [hrest]
      simp [addLog]
    · intro x hx
      rcases List.mem_cons.mp hx with rfl | hx'
      · exact Or.inl ⟨_, rfl⟩
      · exact hno' x hx'

set_option maxRecDepth 16384 in
/-- C3 counterexample: after a first successful run over one product and
one dataset, the second run against the unchanged source and index makes
no insertions — and also performs no file write at all.  The dataset
sidecar file (written in run one, as the final conjunct shows) is *not*
rewritten on the second run, because the sidecar write sits inside the
not-yet-indexed branch (odc.py:166-185); the claim's "rewritten on every
run with byte-identical content" is false. -/
theorem c3_rerun_counterexample :
    ∃ s1 s2,
      run_odc_import okProductBuild okDsEnv "/odc/data" "src1" ["p1"]
          [("p1", ["/data/d1.tif"])]
          { idxProducts := [], idxDatasets := [], files := ["/data/d1.tif"],
            sidecars := [], writes := [], logs := [] } =
        Except.ok s1 ∧
      run_odc_import okProductBuild okDsEnv "/odc/data" "src1" ["p1"]
          [("p1", ["/data/d1.tif"])] s1 =
        Except.ok s2 ∧
      s2.idxProducts = s1.idxProducts ∧
      s2.idxDatasets = s1.idxDatasets ∧
      s2.writes = s1.writes ∧
      datasetYamlPath "/data/d1.tif" ∈ s1.writes := by
  refine ⟨_, _, rfl, rfl, by decide, by decide, by decide, by decide⟩

/-- C3 amended: a re-run against an unchanged source and index — every
declared product already indexed, every declared name mapped, every
existing mapped dataset already indexed under its path id — performs
zero product and dataset insertions, writes no sidecar file (so the
product sidecar is never overwritten and dataset sidecars are *not*
rewritten), and only logs each item as already present or missing. -/
theorem c3_idempotent_amended (bP : String → Except PyErr Doc) (env : DsEnv)
    (gdf fld : String) (names : List String) (m : List (String × List String))
    (st : OdcState)
    (h1 : ∀ n ∈ names, st.idxProducts.contains n = true)
    (h3 : ∀ n ∈ names, (alistGet? m n).isSome)
    (h2 : ∀ n ds, alistGet? m n = Option.some ds → ∀ p ∈ ds,
      pathExists st p = true → st.idxDatasets.contains (datasetId p) = true) :
    ∃ ext, run_odc_import bP env gdf fld names m st =
        Except.ok { st with logs := st.logs ++ ext } ∧
      ∀ e ∈ ext, LogEvent.isNoOp e := by
  rcases add_products_noop bP gdf fld names st h1 with ⟨ext1, hprod, hno1⟩
  rcases add_datasets_noop env names m { st with logs := st.logs ++ ext1 } h3
      (fun n ds hds p hp hx => h2 n ds hds p hp hx) with ⟨ext2, hds2, hno2⟩
  refine ⟨ext1 ++ ext2, ?_, ?_⟩
  · unfold run_odc_import
    rw [hprod]
    show add_datasets_to_odc env names m { st with logs := st.logs ++ ext1 } =
      Except.ok { st with logs := st.logs ++ (ext1 ++ ext2) }
    rw [hds2]
    simp
  · intro x hx
    rcases List.mem_append.mp hx with hx1 | hx2
    · exact hno1 x hx1
    · exact hno2 x hx2

set_option maxRecDepth 16384 in
/-- C3 witness: the amended statement at a concrete one-product,
one-dataset state that is already fully indexed. -/
theorem c3_idempotent_amended_witness :
    ∃ ext, run_odc_import okProductBuild okDsEnv "/odc/data" "src1" ["p1"]
        [("p1", ["/data/d1.tif"])] c3IdxState =
      Except.ok { c3IdxState with logs := c3IdxState.logs ++ ext } ∧
    ∀ e ∈ ext, LogEvent.isNoOp e :=
  c3_idempotent_amended okProductBuild okDsEnv "/odc/data" "src1" ["p1"]
    [("p1", ["/data/d1.tif"])] c3IdxState
    (by decide) (by decide)
    (by
      intro n ds hds p hp hx
      by_cases hn : ("p1" : String) = n
      · rw [← hn] at hds
        simp [alistGet?] at hds
        subst hds
        have hp1 := List.mem_singleton.mp hp
        subst hp1
        decide
      · simp [alistGet?, hn] at hds)

/-- C7 counterexample: `NetCDFLoader.create_dataset_metadata_eo3`
hardcodes `product_name: 'waves'` (netcdf.py:133), so a dataset
enumerated under the `currents` product carries `product_name` `"waves"`,
not `"currents"`. -/
theorem c7_product_name_counterexample :
    (netcdf_create_dataset_metadata_eo3 currentsMeasurementKeys ncEnv0 "currents"
        "/odc/data/currents/f.nc").get? "product_name" =
      Option.some (Doc.str "waves") ∧
    Doc.str "waves" ≠ Doc.str "currents" := by
  refine ⟨rfl, ?_⟩
  intro hc
  injection hc with hs
  exact absurd hs (by decide)

/-- C7 amended: the tiled-raster adapter sets `product_name` to the
product under which the file was enumerated (anthroprotect.py:289), for
every product name its prefix dispatch accepts; the NetCDF-based
adapters instead hardcode `"waves"`, so there the field equals the
enumerating product only when that product is itself named `waves`. -/
theorem c7_product_name_amended :
    (∀ (env : TifEnv) (odc_product_name path : String),
      pyStartsWith odc_product_name "s2" = true ∨ pyStartsWith odc_product_name "lcs" = true →
      (ap_create_dataset_metadata_eo3 env odc_product_name path).map
          (fun d => d.get? "product_name") =
        Except.ok (Option.some (Doc.str odc_product_name)))
    ∧ (∀ (measurementKeys : List String) (env : NcEnv) (odc_product_name path : String),
      (netcdf_create_dataset_metadata_eo3 measurementKeys env odc_product_name path).get?
          "product_name" =
        Option.some (Doc.str "waves")) := by
  constructor
  · intro env pn path h
    by_cases h1 : pyStartsWith pn "s2_scl" = true
    · unfold ap_create_dataset_metadata_eo3 ap_dataset_selection
      rw [if_pos h1]
      rfl
    · by_cases h2 : pyStartsWith pn "s2" = true
      · unfold ap_create_dataset_metadata_eo3 ap_dataset_selection
        rw [if_neg h1, if_pos h2]
        rfl
      · by_cases h3 : pyStartsWith pn "lcs" = true
        · unfold ap_create_dataset_metadata_eo3 ap_dataset_selection
          rw [if_neg h1, if_neg h2, if_pos h3]
          rfl
        · rcases h with h | h
          · exact absurd h h2
          · exact absurd h h3
  · intro measurementKeys env pn path
    rfl

/-- C7 witness: the amended statement at a concrete tiled-raster input. -/
theorem c7_product_name_amended_witness :
    (ap_create_dataset_metadata_eo3 tifEnv0 "s2" "/a.tif").map
        (fun d => d.get? "product_name") =
      Except.ok (Option.some (Doc.str "s2")) :=
  c7_product_name_amended.1 tifEnv0 "s2" "/a.tif" (Or.inl (by decide))

/-- C8: every band binding carries exactly one locator — the tiled-raster
adapter binds every measurement by a 1-based positional band index and no
layer name (anthroprotect.py:267-271), the NetCDF adapter binds every
measurement by its variable name as `layer` and no band index
(netcdf.py:121-127). -/
theorem c8_band_xor_layer :
    (∀ (env : TifEnv) (odc_product_name path : String) (d : Doc),
      ap_create_dataset_metadata_eo3 env odc_product_name path = Except.ok d →
      ∃ entries, d.get? "bands" = Option.some (Doc.obj entries) ∧
        ∀ e ∈ entries, ∃ i : Nat,
          e.2.get? "band" = Option.some (Doc.int (Int.ofNat i + 1)) ∧
          e.2.get? "layer" = Option.none)
    ∧ (∀ (measurementKeys : List String) (env : NcEnv) (odc_product_name path : String),
      ∃ entries,
        (netcdf_create_dataset_metadata_eo3 measurementKeys env odc_product_name path).get?
            "bands" =
          Option.some (Doc.obj entries) ∧
        ∀ e ∈ entries, e.2.get? "layer" = Option.some (Doc.str e.1) ∧
          e.2.get? "band" = Option.none) := by
  constructor
  · intro env pn path d h
    unfold ap_create_dataset_metadata_eo3 at h
    cases hsel : ap_dataset_selection pn with
    | error e => rw [hsel] at h; cases h
    | ok x =>
      rw [hsel] at h
      cases h
      refine ⟨apBands x.1 path, by rfl, ?_⟩
      intro e he
      rcases List.mem_map.mp he with ⟨p, hp, rfl⟩
      exact ⟨p.1, rfl, rfl⟩
  · intro measurementKeys env pn path
    refine ⟨measurementKeys.map
      (fun v => (v, Doc.obj [("path", Doc.str path), ("layer", Doc.str v)])), by rfl, ?_⟩
    intro e he
    rcases List.mem_map.mp he with ⟨v, hv, rfl⟩
    exact ⟨rfl, rfl⟩

/-- C8 witness: both halves at concrete inputs (`s2` over a GeoTIFF,
`waves` over a NetCDF file). -/
theorem c8_band_xor_layer_witness :
    (∃ entries, apS2Doc.get? "bands" = Option.some (Doc.obj entries) ∧
      ∀ e ∈ entries, ∃ i : Nat,
        e.2.get? "band" = Option.some (Doc.int (Int.ofNat i + 1)) ∧
        e.2.get? "layer" = Option.none)
    ∧ (∃ entries,
      (netcdf_create_dataset_metadata_eo3 wavesMeasurementKeys ncEnv0 "waves"
          "/odc/data/waves/f.nc").get? "bands" =
        Option.some (Doc.obj entries) ∧
      ∀ e ∈ entries, e.2.get? "layer" = Option.some (Doc.str e.1) ∧
        e.2.get? "band" = Option.none) :=
  ⟨c8_band_xor_layer.1 tifEnv0 "s2" "/a.tif" apS2Doc rfl,
   c8_band_xor_layer.2 wavesMeasurementKeys ncEnv0 "waves" "/odc/data/waves/f.nc"⟩

/-- C10: `force_download` holds the raw environment string, and only its
truthiness is tested (anthroprotect.py:172, 355).  Any set, non-empty
value — `"False"` and `"0"` included — makes `download` delete the
existing output folder and archive and fall through to a fresh fetch,
while an unset variable leaves an existing output folder untouched and
returns success without downloading. -/
theorem c10_force_download_truthiness :
    (∀ (getenv : String → Option String) (s : String),
      getenv "ANTHROPROTECT_FORCE_DOWNLOAD" = Option.some s → s ≠ "" →
      ∀ (env : DlEnv) (gdf zipName folderName url : String),
        env.outFolderExists = true → env.zipFileExists = true →
        ∃ rest, (ap_download (ap_init_force_download getenv) env gdf zipName folderName url).1 =
          FsAct.rmtree (pyJoin gdf folderName) :: FsAct.removeFile (pyJoin gdf zipName) ::
            FsAct.fetch url :: rest)
    ∧ (∀ (getenv : String → Option String),
      getenv "ANTHROPROTECT_FORCE_DOWNLOAD" = Option.none →
      ∀ (env : DlEnv) (gdf zipName folderName url : String),
        env.outFolderExists = true →
        ap_download (ap_init_force_download getenv) env gdf zipName folderName url =
          ([], true)) := by
  constructor
  · intro getenv s hg hs env gdf zipName folderName url ho hz
    simp only [ap_download, ap_init_force_download, hg, truthy, ho, hz, ap_download_tail,
      if_true, decide_eq_true_eq]
    rw [if_pos hs]
    by_cases hf : env.fetchOk = true
    · exact ⟨ap_check_sha256_acts env.hashOk (pyJoin gdf zipName) ++
        (ap_unzip_acts env.unzipOk (pyJoin gdf zipName)).1, by simp [hf]⟩
    · simp only [Bool.not_eq_true] at hf
      exact ⟨[], by simp [hf]⟩
  · intro getenv hg env gdf zipName folderName url ho
    simp [ap_download, ap_init_force_download, hg, truthy, ho]

/-- C10 witness: the literal strings `"False"` (and unset) behave as the
theorem states, on a concrete environment. -/
theorem c10_force_download_truthiness_witness :
    (∃ rest, (ap_download
        (ap_init_force_download (fun _ => Option.some "False"))
        { outFolderExists := true, zipFileExists := true,
          fetchOk := true, hashOk := true, unzipOk := true }
        "/odc/data" "anthroprotect.zip" "anthroprotect"
        "https://uni-bonn.sciebo.de/s/6wrgdIndjpfRJuA/download").1 =
      FsAct.rmtree (pyJoin "/odc/data" "anthroprotect") ::
        FsAct.removeFile (pyJoin "/odc/data" "anthroprotect.zip") ::
        FsAct.fetch "https://uni-bonn.sciebo.de/s/6wrgdIndjpfRJuA/download" :: rest)
    ∧ ap_download (ap_init_force_download (fun _ => Option.none))
        { outFolderExists := true, zipFileExists := true,
          fetchOk := true, hashOk := true, unzipOk := true }
        "/odc/data" "anthroprotect.zip" "anthroprotect"
        "https://uni-bonn.sciebo.de/s/6wrgdIndjpfRJuA/download" = ([], true) :=
  ⟨c10_force_download_truthiness.1 (fun _ => Option.some "False") "False" rfl
      (by decide) _ _ _ _ _ rfl rfl,
   c10_force_download_truthiness.2 (fun _ => Option.none) rfl
      { outFolderExists := true, zipFileExists := true,
        fetchOk := true, hashOk := true, unzipOk := true }
      "/odc/data" "anthroprotect.zip" "anthroprotect"
      "https://uni-bonn.sciebo.de/s/6wrgdIndjpfRJuA/download" rfl⟩
